import Mathlib

/-!
Shallow embedding of `DLsite_DB_Crawler.py` (the only source file of the
repository) and proofs about the claims of its specification.

Conventions of the embedding:
* Python `int` is modelled as `Int` (arbitrary precision in both).
* Python strings are Lean `String`s; f-string formatting is modelled by
  explicit construction of the character list (`String.mk`).
* Python functions that can raise are modelled with `Except String`/`Option`;
  the error string names the Python exception.
* Filesystem and network are explicit: the set of existing file paths is a
  `List String`, the network is a function in the environment record.
-/

/-- Decimal digits of `n`, least significant first, via structural recursion on
a fuel argument (`fuel ≥ n` suffices).  Mirrors `Nat.digits 10` but is
kernel-reducible. -/
def digitsFuel : Nat → Nat → List Nat
  | 0, _ => []
  | _ + 1, 0 => []
  | f + 1, n + 1 => ((n + 1) % 10) :: digitsFuel f ((n + 1) / 10)

/-- Decimal digits of `n`, least significant first (empty for `0`). -/
def natDigits (n : Nat) : List Nat := digitsFuel n n

/-- The character of a decimal digit. -/
def digitChar (d : Nat) : Char := Char.ofNat (48 + d)

/-- Numeric value of a decimal digit character. -/
def charDigit (c : Char) : Nat := c.toNat - 48

/-- The `[0-9]` test (Python's `str.isdigit` on ASCII, the `\d` class of the
regex, and the digit test of `int`), stated on `Char.toNat` so that both the
kernel and arithmetic automation can work with it. -/
def isDigitCh (c : Char) : Bool := 48 ≤ c.toNat && c.toNat ≤ 57

/-- Big-endian decimal character representation of `n`; empty for `0`
(the padding in `numFmt` supplies the zeros, as Python's `str(0) = "0"` does
in `strChars`). -/
def natChars (n : Nat) : List Char := ((natDigits n).map digitChar).reverse

/-- Python `str(n)` for a nonnegative `n`. -/
def strChars (n : Nat) : List Char := if n = 0 then ['0'] else natChars n

/-- Python `str(i)` for an arbitrary integer. -/
def intChars (i : Int) : List Char :=
  if i < 0 then '-' :: strChars i.natAbs else strChars i.toNat

/-- Python `f"{n:0wd}"` for `n ≥ 0`: zero-pad the decimal form to width `w`. -/
def numFmt (w : Nat) (n : Nat) : List Char :=
  List.replicate (w - (natChars n).length) '0' ++ natChars n

/-- Python `str.zfill(w)`: left-pad with zeros to length at least `w`. -/
def zfill (w : Nat) (cs : List Char) : List Char :=
  List.replicate (w - cs.length) '0' ++ cs

/-- Numeric value of a list of decimal digit characters (Python `int` on an
all-digit string). -/
def parseNat (cs : List Char) : Nat :=
  cs.foldl (fun a c => 10 * a + charDigit c) 0

/-- Python `int(s)` on a string: an optional sign followed by a nonempty run
of decimal digits; anything else raises `ValueError`.  (Python additionally
strips surrounding whitespace and allows `_` separators; no identifier in this
development contains either, and no theorem below evaluates `pyInt` on such a
string.) -/
def pyInt (cs : List Char) : Except String Int :=
  if cs.head? = some '-' then
    if cs.tail ≠ [] ∧ cs.tail.all isDigitCh then
      Except.ok (-(parseNat cs.tail : Int))
    else Except.error "ValueError: invalid literal for int() with base 10"
  else if cs.head? = some '+' then
    if cs.tail ≠ [] ∧ cs.tail.all isDigitCh then
      Except.ok (parseNat cs.tail : Int)
    else Except.error "ValueError: invalid literal for int() with base 10"
  else
    if cs ≠ [] ∧ cs.all isDigitCh then
      Except.ok (parseNat cs : Int)
    else Except.error "ValueError: invalid literal for int() with base 10"

/-- `extract_number_and_type` (source lines 34–41): the first two characters
are the family tag; for a recognized tag the remainder is fed to `int(·)`
(which may raise, modelled by `Except.error`); any other tag yields the
sentinel `(0, "")`. -/
def extract_number_and_type (id_str : String) : Except String (Int × String) :=
  let code_type := String.mk (id_str.data.take 2)
  if code_type = "RJ" ∨ code_type = "VJ" then
    (pyInt (id_str.data.drop 2)).map (fun n => (n, code_type))
  else Except.ok (0, "")

/-- `generate_id` (source lines 66–78): pad to width 6 for `0 ≤ n ≤ 999999`,
width 8 for `1000000 ≤ n ≤ 9999999`, otherwise fall back to the unpadded
`f"{code_type}{number}"` form. -/
def generate_id (number : Int) (code_type : String) : String :=
  if code_type = "RJ" then
    if 0 ≤ number ∧ number ≤ 999999 then
      String.mk ('R' :: 'J' :: numFmt 6 number.toNat)
    else if 1000000 ≤ number ∧ number ≤ 9999999 then
      String.mk ('R' :: 'J' :: numFmt 8 number.toNat)
    else String.mk (code_type.data ++ intChars number)
  else if code_type = "VJ" then
    if 0 ≤ number ∧ number ≤ 999999 then
      String.mk ('V' :: 'J' :: numFmt 6 number.toNat)
    else if 1000000 ≤ number ∧ number ≤ 9999999 then
      String.mk ('V' :: 'J' :: numFmt 8 number.toNat)
    else String.mk (code_type.data ++ intChars number)
  else String.mk (code_type.data ++ intChars number)

/-- Uppercase ASCII letter test, the `[A-Z]` character class of the regex in
`get_base_folder`. -/
def isUpperAZ (c : Char) : Bool := 65 ≤ c.toNat && c.toNat ≤ 90

/-- `get_base_folder` (source lines 43–63).  `re.match(r'([A-Z]+)(\d+)', s)`
anchored at the start: a maximal nonempty run of uppercase letters followed by
a nonempty run of digits (trailing characters are ignored, as `re.match` only
matches a prefix); on no match the function returns `None`.  The numeric part
is rounded up to the next multiple of 1000 — the source computes
`math.ceil(code_num / 1000) * 1000` with float division, which agrees with the
exact `(code_num + 999) / 1000 * 1000` used here for every `code_num < 2 ^ 52`
— and the result is `zfill`ed to the width of the source digit run. -/
def get_base_folder (product_id : String) : Option String :=
  let cs := product_id.data
  let pfx := cs.takeWhile isUpperAZ
  let digits := (cs.drop pfx.length).takeWhile isDigitCh
  if pfx = [] ∨ digits = [] then none
  else
    let code_num := parseNat digits
    let base_num := ((code_num + 999) / 1000) * 1000
    some (String.mk (pfx ++ zfill digits.length (strChars base_num)))

-- ### Ingestion pipeline (process_sequential_ids, download_image)

/-- The provider record consumed by the pipeline: the fields of the
`dlsite_async` work object that `process_sequential_ids` reads. -/
structure Work where
  product_id : String
  site_id : String
  circle : Option String
  brand : Option String
  work_name : String
  work_image : Option String
deriving DecidableEq

/-- External collaborators: `provider s` is the result of
`fetch_work_info(api, s)` (`none` both for not-found and for any other
provider failure, as the source returns `None` in both cases), and `net u`
tells whether `session.get(u)` succeeds with status 200. -/
structure Env where
  provider : String → Option Work
  net : String → Bool

/-- One catalog record (the dict built at source lines 162–167). -/
structure Entry where
  maker : String
  code : String
  title : String
  translate_title : String
deriving DecidableEq

/-- Mutable state threaded through the pipeline: the in-memory `database`
list and the set of file paths existing on disk. -/
structure St where
  database : List Entry
  disk : List String
deriving DecidableEq

/-- Python `str.startswith`, stated structurally on the character lists. -/
def startsWithStr (s pre : String) : Bool := pre.data.isPrefixOf s.data

/-- `fix_image_url` (source lines 91–94). -/
def fix_image_url (url : String) : String :=
  if startsWithStr url "//" then "https:" ++ url else url

/-- The asset path `DLsite_DB/<base_folder>/<product_id>/<product_id>_img_main.jpg`
built with `os.path.join` (source lines 138–140, 172–174). -/
def savePathFor (base_folder product_id : String) : String :=
  "DLsite_DB/" ++ base_folder ++ "/" ++ product_id ++ "/" ++ product_id ++ "_img_main.jpg"

/-- Python truthiness of an optional string (`if work.work_image:`,
`if not url:`): `None` and `""` are falsy. -/
def pyTruthy (s : Option String) : Bool :=
  match s with
  | none => false
  | some v => v ≠ ""

/-- Python `x or "Unknown"` on an optional string field. -/
def pyOrUnknown (s : Option String) : String :=
  match s with
  | some v => if v = "" then "Unknown" else v
  | none => "Unknown"

/-- `download_image` (source lines 97–119).  Returns the success flag, the
disk after the call, and the list of paths for which a network fetch was
attempted (empty when the download is skipped because the file exists or the
URL is falsy; a failed fetch leaves no file). -/
def download_image (env : Env) (url : Option String) (save_path : String)
    (disk : List String) : Bool × List String × List String :=
  if pyTruthy url = false then (false, disk, [])
  else if disk.contains save_path then (true, disk, [])
  else
    let u := fix_image_url (url.getD "")
    if env.net u then (true, save_path :: disk, [save_path])
    else (false, disk, [save_path])

/-- The body of the per-identifier loop of `process_sequential_ids`
(source lines 126–177), for one `number`.  `none` models an uncaught
exception: `os.path.join("DLsite_DB", None, ...)` raising `TypeError` when
`get_base_folder` returns `None`.  The result carries the new state and the
attempted download paths.  Note the dedup lookup (line 133) compares stored
`code` fields against the *generated* `product_id`, while a newly created
entry stores the provider's *echoed* `work.product_id` (line 164) and the
asset path of a new entry is likewise derived from the echoed identifier. -/
def processId (env : Env) (code_type : String) (number : Int) (st : St) :
    Option (St × List String) :=
  let product_id := generate_id number code_type
  match st.database.find? (fun e => e.code == product_id) with
  | some _ =>
    match get_base_folder product_id with
    | none => none
    | some base_folder =>
      let save_path := savePathFor base_folder product_id
      if st.disk.contains save_path then some (st, [])
      else
        match env.provider product_id with
        | some w =>
          if pyTruthy w.work_image then
            let d := download_image env w.work_image save_path st.disk
            some (⟨st.database, d.2.1⟩, d.2.2)
          else some (st, [])
        | none => some (st, [])
  | none =>
    match env.provider product_id with
    | none => some (st, [])
    | some w =>
      if w.site_id == "maniax" || w.site_id == "pro" then
        let maker := if startsWithStr w.product_id "RJ" then pyOrUnknown w.circle
                     else if startsWithStr w.product_id "VJ" then pyOrUnknown w.brand
                     else "Unknown"
        let entry : Entry := ⟨maker, w.product_id, w.work_name, "NaN"⟩
        if pyTruthy w.work_image then
          match get_base_folder w.product_id with
          | none => none
          | some bf =>
            let sp := savePathFor bf w.product_id
            let d := download_image env w.work_image sp st.disk
            some (⟨st.database ++ [entry], d.2.1⟩, d.2.2)
        else some (⟨st.database ++ [entry], st.disk⟩, [])
      else some (st, [])

/-- The loop of `process_sequential_ids` over a list of numbers, threading
the state and collecting attempted downloads; `none` propagates an uncaught
exception. -/
def runIds (env : Env) (code_type : String) : List Int → St → Option (St × List String)
  | [], st => some (st, [])
  | n :: ns, st =>
    match processId env code_type n st with
    | none => none
    | some p =>
      match runIds env code_type ns p.1 with
      | none => none
      | some q => some (q.1, p.2 ++ q.2)

-- ### Range planner and `main` (enumeration order, resume logic, VJ phase)

/-- `intRangeAux n a = [a, a+1, …, a+n-1]`. -/
def intRangeAux : Nat → Int → List Int
  | 0, _ => []
  | n + 1, a => a :: intRangeAux n (a + 1)

/-- Python `range(a, b)` over integers. -/
def intRange (a b : Int) : List Int := intRangeAux (b - a).toNat a

/-- `stepRangeAux k a st = [a, a+st, …]` with `k` elements. -/
def stepRangeAux : Nat → Int → Int → List Int
  | 0, _, _ => []
  | k + 1, a, st => a :: stepRangeAux k (a + st) st

/-- Python `range(a, b, step)` for a positive `step`. -/
def pyRangeStep (a b step : Int) : List Int :=
  stepRangeAux (((b - a).toNat + (step.toNat - 1)) / step.toNat) a step

/-- The numbers visited when `main` processes `[cur, fin]` in batches
(source lines 263–266, with `batch_end = min(batch_start + batch_size - 1,
range_end)` and `process_sequential_ids` covering `[batch_start, batch_end]`
inclusive). -/
def batchedIds (cur fin step : Int) : List Int :=
  (pyRangeStep cur (fin + 1) step).flatMap
    (fun bs => intRange bs (min (bs + step - 1) fin + 1))

/-- A dynamically-typed Python value: an int or a pair.  Needed because
`main` stores `(start, end)` tuples in `vj_range` and then applies integer
operations to its elements. -/
inductive PyVal
  | pint : Int → PyVal
  | ptup : Int → Int → PyVal
deriving DecidableEq

/-- Python `+` on dynamically-typed values. -/
def pyAdd : PyVal → PyVal → Except String PyVal
  | PyVal.pint a, PyVal.pint b => Except.ok (PyVal.pint (a + b))
  | PyVal.ptup _ _, _ =>
      Except.error "TypeError: can only concatenate tuple (not \"int\") to tuple"
  | _, _ => Except.error "TypeError: unsupported operand type(s) for +"

/-- `rj_ranges` (source lines 207–210). -/
def rj_ranges : List (Int × Int) := [(0, 499999), (1000000, 1369999)]

/-- `vj_range` (source lines 212–215): a list of two tuples, kept
dynamically typed because `main` later evaluates `vj_range[1] + 1`. -/
def vj_range : List PyVal := [PyVal.ptup 0 499999, PyVal.ptup 1000000 1369999]

/-- `batch_size` (source line 244). -/
def batch_size : Int := 1000

/-- The start information computed at source lines 216–241. -/
structure StartInfo where
  start_number : Int
  rj_range_index : Nat
  start_in_vj : Bool
deriving DecidableEq

/-- The resume logic of `main` (source lines 216–241): defaults
`(0, 0, False)`; with a saved identifier, `extract_number_and_type` is applied
(propagating any exception), an `RJ` number selects the range index containing
it (index stays 0 for a number in neither range), a `VJ` number sets
`start_in_vj`, and the empty sentinel keeps all defaults. -/
def resumeInfo (saved : Option String) : Except String StartInfo :=
  match saved with
  | none => Except.ok ⟨0, 0, false⟩
  | some sid =>
    (extract_number_and_type sid).map (fun p =>
      if p.2 = "RJ" then
        ⟨p.1, if 0 ≤ p.1 ∧ p.1 ≤ 499999 then 0
              else if 1000000 ≤ p.1 ∧ p.1 ≤ 1369999 then 1 else 0, false⟩
      else if p.2 = "VJ" then ⟨p.1, 0, true⟩
      else ⟨0, 0, false⟩)

/-- The RJ numbers visited by `main` (source lines 249–273): ranges from
`rj_range_index` on, the first starting at `start_number`, each processed in
batches of `batch_size`; nothing when resuming inside the VJ phase. -/
def rjVisited (info : StartInfo) : List Int :=
  if info.start_in_vj then []
  else
    ((List.range rj_ranges.length).drop info.rj_range_index).flatMap (fun i =>
      let r := rj_ranges.getD i (0, 0)
      let cur := if i = info.rj_range_index then info.start_number else r.1
      batchedIds cur r.2 batch_size)

/-- The VJ phase of `main` (source lines 276–292): `vj_start` is
`start_number` when resuming in VJ and otherwise the *tuple* `vj_range[0]`;
`vj_end` is always the tuple `vj_range[1]`; the loop header evaluates
`range(vj_start, vj_end + 1, batch_size)`, whose `vj_end + 1` adds an int to
a tuple.  The success continuation is the batched enumeration the loop would
have produced had both bounds been ints. -/
def vjPhase (info : StartInfo) : Except String (List Int) :=
  let vj_start : PyVal :=
    if info.start_in_vj then PyVal.pint info.start_number
    else vj_range.getD 0 (PyVal.pint 0)
  let vj_end : PyVal := vj_range.getD 1 (PyVal.pint 0)
  match pyAdd vj_end (PyVal.pint 1) with
  | Except.error e => Except.error e
  | Except.ok upper =>
    match vj_start, upper with
    | PyVal.pint s, PyVal.pint u => Except.ok (batchedIds s (u - 1) batch_size)
    | _, _ => Except.error "TypeError: tuple object cannot be interpreted as an integer"

/-- The identifiers `main` visits, in order, for a given saved cursor: the
RJ identifiers, then either the VJ identifiers or — as actually happens — an
uncaught `TypeError` recorded in the second component.  An outer
`Except.error` models a crash inside the resume logic itself. -/
def mainRun (saved : Option String) : Except String (List String × Option String) :=
  match resumeInfo saved with
  | Except.error e => Except.error e
  | Except.ok info =>
    let rjIds := (rjVisited info).map (fun n => generate_id n "RJ")
    match vjPhase info with
    | Except.error e => Except.ok (rjIds, some e)
    | Except.ok vjNums =>
        Except.ok (rjIds ++ vjNums.map (fun n => generate_id n "VJ"), none)

/-- The identifiers actually visited by a run (empty if the run dies before
visiting anything). -/
def visitedOf (r : Except String (List String × Option String)) : List String :=
  match r with
  | Except.ok p => p.1
  | Except.error _ => []

/-- The visit sequence of an uninterrupted fresh run. -/
def onePassIds : List String := visitedOf (mainRun none)

/-- The numbers of the family-A (RJ) enumeration universe declared by
`rj_ranges`. -/
def universeRJ : List Int := intRange 0 500000 ++ intRange 1000000 1370000

-- ### The two-phase (stop and resume) run, for the resume-equivalence claim

/-- The prefix of a visit sequence through the first occurrence of `K`
(the run is stopped right after processing `K`). -/
def stopAfter (K : String) : List String → List String
  | [] => []
  | x :: xs => if x = K then [x] else x :: stopAfter K xs

/-- Whether visiting identifier `s` overwrites the checkpoint file: the
source saves progress exactly when `number % 10 == 0` (line 129). -/
def chkSaved (s : String) : Bool :=
  match extract_number_and_type s with
  | Except.ok p => p.1 % 10 == 0
  | Except.error _ => false

/-- The checkpoint on disk after a (partial) visit sequence: the last
identifier whose visit saved progress. -/
def savedCursor (l : List String) : Option String := (l.filter chkSaved).getLast?

/-- Phase one of the two-phase run: a fresh run stopped right after
identifier number `t`. -/
def phaseOne (t : Int) : List String := stopAfter (generate_id t "RJ") onePassIds

/-- The full two-phase visit sequence: the stopped run followed by the run
restarted from the persisted cursor. -/
def twoPhase (t : Int) : List String :=
  phaseOne t ++ visitedOf (mainRun (savedCursor (phaseOne t)))

-- ### Catalog loading (main, source lines 193–204)

/-- A JSON value, as `json.load` produces it. -/
inductive JVal
  | jnull : JVal
  | jbool : Bool → JVal
  | jnum : Int → JVal
  | jstr : String → JVal
  | jarr : List JVal → JVal
  | jobj : List (String × JVal) → JVal

/-- What happened when `main` tried to read `dlsite_database.json`. -/
inductive LoadResult
  | fileMissing : LoadResult
  | readOrParseError : LoadResult
  | parsed : JVal → LoadResult

/-- The catalog loader of `main` (source lines 193–204): a missing file or
any read/parse exception leaves `database = []`; a parsed dict with an
`"items"` key contributes that value; any other parsed value is taken as the
database directly. -/
def loadDatabase : LoadResult → JVal
  | LoadResult.fileMissing => JVal.jarr []
  | LoadResult.readOrParseError => JVal.jarr []
  | LoadResult.parsed v =>
    match v with
    | JVal.jobj fields =>
      match fields.lookup "items" with
      | some items => items
      | none => JVal.jobj fields
    | other => other

-- ### Concrete scenario environments used by individual claims

/-- A provider record whose echoed identifier `RJ0000001` differs in padding
from the requested `RJ000001`. -/
def wEcho : Work := ⟨"RJ0000001", "maniax", some "C1", none, "T1", none⟩

/-- Provider answering only `RJ000001`, with a reformatted echo. -/
def envEcho : Env :=
  ⟨fun s => if s = "RJ000001" then some wEcho else none, fun _ => false⟩

/-- The accepted record of the single-record scenario. -/
def wOk : Work := ⟨"RJ000001", "maniax", some "C1", none, "T1", none⟩

/-- A record with a disallowed site classification. -/
def wBad : Work := ⟨"RJ000002", "home", some "C2", none, "T2", none⟩

/-- The scenario provider: found for numbers 1 (allowed) and 2 (disallowed),
not found for 0 and 3. -/
def envScenario : Env :=
  ⟨fun s => if s = "RJ000001" then some wOk
            else if s = "RJ000002" then some wBad else none,
   fun _ => false⟩

/-- A provider returning a disallowed record for `RJ000000` (acceptance
filter witness). -/
def envBadOnly : Env :=
  ⟨fun s => if s = "RJ000000" then some wBad else none, fun _ => false⟩

-- ### Round-trip lemmas for the codec

theorem digitsFuel_eq (f n : Nat) (h : n ≤ f) : digitsFuel f n = Nat.digits 10 n := by
  induction f generalizing n with
  | zero =>
    interval_cases n
    simp [digitsFuel]
  | succ f ih =>
    match n with
    | 0 => simp [digitsFuel]
    | n + 1 =>
      rw [digitsFuel, Nat.digits_def' (by norm_num : (1:Nat) < 10) (Nat.succ_pos n)]
      rw [ih ((n + 1) / 10) (by omega)]

theorem natDigits_eq (n : Nat) : natDigits n = Nat.digits 10 n :=
  digitsFuel_eq n n le_rfl

theorem charDigit_digitChar (d : Nat) (hd : d < 10) : charDigit (digitChar d) = d := by
  interval_cases d <;> rfl

theorem isDigit_digitChar (d : Nat) (hd : d < 10) : isDigitCh (digitChar d) = true := by
  interval_cases d <;> rfl

theorem natChars_all_digits (n : Nat) : ∀ c ∈ natChars n, isDigitCh c = true := by
  intro c hc
  rw [natChars, List.mem_reverse, List.mem_map] at hc
  obtain ⟨d, hd, rfl⟩ := hc
  rw [natDigits_eq] at hd
  exact isDigit_digitChar d (Nat.digits_lt_base (by norm_num) hd)

theorem parseNat_natChars (n : Nat) : parseNat (natChars n) = n := by
  rw [parseNat, natChars, List.foldl_reverse]
  have h : ∀ (ds : List Nat), (∀ d ∈ ds, d < 10) →
      List.foldr (fun x y => 10 * y + charDigit x) 0 (ds.map digitChar) =
        Nat.ofDigits 10 ds := by
    intro ds
    induction ds with
    | nil => intro _; simp [Nat.ofDigits]
    | cons d ds ih =>
      intro hds
      rw [List.map_cons, List.foldr_cons, ih (fun x hx => hds x (List.mem_cons_of_mem _ hx)),
        charDigit_digitChar d (hds d (List.mem_cons_self d ds)), Nat.ofDigits_cons]
      ring
  rw [h (natDigits n) (by rw [natDigits_eq]; exact fun d hd => Nat.digits_lt_base (by norm_num) hd)]
  rw [natDigits_eq, Nat.ofDigits_digits]

theorem natChars_ne_nil (n : Nat) (hn : n ≠ 0) : natChars n ≠ [] := by
  rw [natChars, natDigits_eq]
  simp [Nat.digits_ne_nil_iff_ne_zero, hn]

theorem strChars_all_digits (n : Nat) : ∀ c ∈ strChars n, isDigitCh c = true := by
  rw [strChars]
  split
  · intro c hc
    simp only [List.mem_singleton] at hc
    subst hc; rfl
  · exact natChars_all_digits n

theorem strChars_ne_nil (n : Nat) : strChars n ≠ [] := by
  rw [strChars]
  split
  · simp
  · exact natChars_ne_nil n (by assumption)

theorem parseNat_strChars (n : Nat) : parseNat (strChars n) = n := by
  rw [strChars]
  split
  · subst n; rfl
  · exact parseNat_natChars n

theorem parseNat_zeros_append (k : Nat) (cs : List Char) :
    parseNat (List.replicate k '0' ++ cs) = parseNat cs := by
  rw [parseNat, parseNat, List.foldl_append]
  congr 1
  induction k with
  | zero => rfl
  | succ k ih => rw [List.replicate_succ, List.foldl_cons]; exact ih

theorem parseNat_numFmt (w n : Nat) : parseNat (numFmt w n) = n := by
  rw [numFmt, parseNat_zeros_append, parseNat_natChars]

theorem numFmt_ne_nil (w n : Nat) (hw : 0 < w) : numFmt w n ≠ [] := by
  rw [numFmt]
  rcases Nat.eq_zero_or_pos n with h | h
  · subst h
    simp [natChars, natDigits, digitsFuel]
    omega
  · intro hcontra
    rcases List.append_eq_nil.mp hcontra with ⟨_, h2⟩
    exact natChars_ne_nil n (by omega) h2

theorem numFmt_all_digits (w n : Nat) : ∀ c ∈ numFmt w n, isDigitCh c = true := by
  intro c hc
  rw [numFmt, List.mem_append] at hc
  rcases hc with hc | hc
  · rw [List.eq_of_mem_replicate hc]; rfl
  · exact natChars_all_digits n c hc

theorem head_digit_not_sign {cs : List Char} (h : ∀ c ∈ cs, isDigitCh c = true) :
    cs.head? ≠ some '-' ∧ cs.head? ≠ some '+' := by
  match cs with
  | [] => simp
  | c :: rest =>
    have hc := h c (List.mem_cons_self c rest)
    constructor <;> intro hcontra <;> simp only [List.head?_cons, Option.some.injEq] at hcontra <;>
      subst hcontra <;> simp [isDigitCh] at hc

theorem pyInt_digits (cs : List Char) (hne : cs ≠ []) (hd : ∀ c ∈ cs, isDigitCh c = true) :
    pyInt cs = Except.ok (parseNat cs : Int) := by
  obtain ⟨h1, h2⟩ := head_digit_not_sign hd
  rw [pyInt, if_neg h1, if_neg h2, if_pos ⟨hne, by rw [List.all_eq_true]; exact hd⟩]

theorem pyInt_intChars (i : Int) : pyInt (intChars i) = Except.ok i := by
  rw [intChars]
  split
  · rename_i hneg
    have hne := strChars_ne_nil i.natAbs
    have hall : (strChars i.natAbs).all isDigitCh = true := by
      rw [List.all_eq_true]; exact strChars_all_digits i.natAbs
    rw [pyInt]
    rw [if_pos (by simp)]
    rw [if_pos ⟨by simpa using hne, by simpa using hall⟩]
    simp only [List.tail_cons, parseNat_strChars]
    congr 1
    omega
  · rename_i hpos
    rw [pyInt_digits _ (strChars_ne_nil i.toNat) (strChars_all_digits i.toNat),
      parseNat_strChars]
    congr 1
    omega

/-- Helper: the codec round-trips for every integer and both recognized
families. -/
theorem extract_generate_roundtrip (n : Int) (t : String) (ht : t = "RJ" ∨ t = "VJ") :
    extract_number_and_type (generate_id n t) = Except.ok (n, t) := by
  have key : ∀ (c1 c2 : Char) (body : List Char),
      (String.mk (c1 :: c2 :: body)).data.take 2 = [c1, c2] ∧
      (String.mk (c1 :: c2 :: body)).data.drop 2 = body := by
    intro c1 c2 body
    constructor <;> rfl
  rcases ht with rfl | rfl
  · rw [generate_id, if_pos rfl]
    by_cases h1 : 0 ≤ n ∧ n ≤ 999999
    · rw [if_pos h1, extract_number_and_type]
      simp only [(key 'R' 'J' _).1, (key 'R' 'J' _).2]
      rw [if_pos (Or.inl (by decide))]
      rw [pyInt_digits _ (numFmt_ne_nil 6 n.toNat (by norm_num)) (numFmt_all_digits 6 n.toNat),
        parseNat_numFmt]
      simp only [Except.map]
      congr 2
      omega
    · rw [if_neg h1]
      by_cases h2 : 1000000 ≤ n ∧ n ≤ 9999999
      · rw [if_pos h2, extract_number_and_type]
        simp only [(key 'R' 'J' _).1, (key 'R' 'J' _).2]
        rw [if_pos (Or.inl (by decide))]
        rw [pyInt_digits _ (numFmt_ne_nil 8 n.toNat (by norm_num)) (numFmt_all_digits 8 n.toNat),
          parseNat_numFmt]
        simp only [Except.map]
        congr 2
        omega
      · rw [if_neg h2]
        have : ("RJ" : String).data = ['R', 'J'] := rfl
        rw [extract_number_and_type]
        simp only [this, List.cons_append, List.nil_append]
        simp only [(key 'R' 'J' _).1, (key 'R' 'J' _).2]
        rw [if_pos (Or.inl (by decide)), pyInt_intChars]
        rfl
  · rw [generate_id, if_neg (by decide), if_pos rfl]
    by_cases h1 : 0 ≤ n ∧ n ≤ 999999
    · rw [if_pos h1, extract_number_and_type]
      simp only [(key 'V' 'J' _).1, (key 'V' 'J' _).2]
      rw [if_pos (Or.inr (by decide))]
      rw [pyInt_digits _ (numFmt_ne_nil 6 n.toNat (by norm_num)) (numFmt_all_digits 6 n.toNat),
        parseNat_numFmt]
      simp only [Except.map]
      congr 2
      omega
    · rw [if_neg h1]
      by_cases h2 : 1000000 ≤ n ∧ n ≤ 9999999
      · rw [if_pos h2, extract_number_and_type]
        simp only [(key 'V' 'J' _).1, (key 'V' 'J' _).2]
        rw [if_pos (Or.inr (by decide))]
        rw [pyInt_digits _ (numFmt_ne_nil 8 n.toNat (by norm_num)) (numFmt_all_digits 8 n.toNat),
          parseNat_numFmt]
        simp only [Except.map]
        congr 2
        omega
      · rw [if_neg h2]
        have : ("VJ" : String).data = ['V', 'J'] := rfl
        rw [extract_number_and_type]
        simp only [this, List.cons_append, List.nil_append]
        simp only [(key 'V' 'J' _).1, (key 'V' 'J' _).2]
        rw [if_pos (Or.inr (by decide)), pyInt_intChars]
        rfl

-- ### Shard-key lemmas (get_base_folder)

theorem digit_not_upper {c : Char} (h : isDigitCh c = true) : isUpperAZ c = false := by
  simp only [isDigitCh, Bool.and_eq_true, decide_eq_true_eq] at h
  simp only [isUpperAZ, Bool.and_eq_false_iff, decide_eq_false_iff_not]
  left
  omega

theorem takeWhile_all_eq_self {p : Char → Bool} {l : List Char}
    (h : ∀ c ∈ l, p c = true) : l.takeWhile p = l := by
  induction l with
  | nil => rfl
  | cons c cs ih =>
    rw [List.takeWhile_cons_of_pos (h c (List.mem_cons_self c cs))]
    rw [ih (fun x hx => h x (List.mem_cons_of_mem _ hx))]

/-- Splitting a `prefix ++ digits` character list the way the regex
`([A-Z]+)(\d+)` does. -/
theorem regex_split (P D : List Char)
    (hP : ∀ c ∈ P, isUpperAZ c = true) (hD : ∀ c ∈ D, isDigitCh c = true)
    (hDne : D ≠ []) :
    (P ++ D).takeWhile isUpperAZ = P ∧
    ((P ++ D).drop P.length).takeWhile isDigitCh = D := by
  constructor
  · rw [List.takeWhile_append_of_pos hP]
    match D, hDne with
    | c :: cs, _ =>
      rw [List.takeWhile_cons_of_neg (by
        rw [digit_not_upper (hD c (List.mem_cons_self c cs))]; simp)]
      simp
  · rw [List.drop_left, takeWhile_all_eq_self hD]

-- ### Claim theorems (codec)

/-- C2 (confirmed): for every family tag in {RJ, VJ} and every number in
the supported numeric domain `[0, 9999999]`, parsing the formatted identifier
returns the original pair. -/
theorem codec_roundtrip_supported_domain (n : Int) (t : String)
    (ht : t = "RJ" ∨ t = "VJ") (h0 : 0 ≤ n) (h9 : n ≤ 9999999) :
    extract_number_and_type (generate_id n t) = Except.ok (n, t) :=
  extract_generate_roundtrip n t ht

/-- Witness for C2 at `(123, RJ)`. -/
theorem codec_roundtrip_supported_domain_witness :
    ((0 : Int) ≤ 123 ∧ (123 : Int) ≤ 9999999) ∧
      extract_number_and_type (generate_id 123 "RJ") = Except.ok (123, "RJ") :=
  ⟨by decide, codec_roundtrip_supported_domain 123 "RJ" (Or.inl rfl) (by decide) (by decide)⟩

/-- C10 (confirmed): the codec round-trip holds for every integer, including
negative numbers and numbers above the padded domain, because the fallback
form `family ++ str(n)` also parses back to `(n, family)`. -/
theorem codec_roundtrip_all_integers (n : Int) (t : String)
    (ht : t = "RJ" ∨ t = "VJ") :
    extract_number_and_type (generate_id n t) = Except.ok (n, t) :=
  extract_generate_roundtrip n t ht

/-- Witness for C10 at the out-of-domain input `(-5, VJ)`. -/
theorem codec_roundtrip_all_integers_witness :
    extract_number_and_type (generate_id (-5) "VJ") = Except.ok (-5, "VJ") :=
  codec_roundtrip_all_integers (-5) "VJ" (Or.inr rfl)

/-- C6 counterexample: `extract_number_and_type` does *not* return a value
for every input — a recognized family tag followed by a non-numeric tail
reaches `int(id_str[2:])`, which raises `ValueError`. -/
theorem extract_raises_on_malformed_tail :
    extract_number_and_type "RJx" =
      Except.error "ValueError: invalid literal for int() with base 10" := rfl

/-- C6 as amended: an input whose first two characters are not a recognized
family tag is silently absorbed into the sentinel `(0, "")`; only such inputs
are guaranteed not to raise (see the counterexample for a recognized tag with
a malformed tail). -/
theorem extract_sentinel_on_unrecognized_tag (s : String)
    (h : ¬ (String.mk (s.data.take 2) = "RJ" ∨ String.mk (s.data.take 2) = "VJ")) :
    extract_number_and_type s = Except.ok (0, "") := by
  rw [extract_number_and_type, if_neg h]

/-- Witness for the amended C6 at `"XX123"`. -/
theorem extract_sentinel_on_unrecognized_tag_witness :
    extract_number_and_type "XX123" = Except.ok (0, "") :=
  extract_sentinel_on_unrecognized_tag "XX123" (by decide)

-- ### Claim theorems (catalog loader)

/-- C9 (confirmed): the catalog loader accepts the wrapper object (its
`"items"` value becomes the in-memory catalog) and a bare array (taken
directly), and any load or parse failure yields the empty catalog instead of
aborting. -/
theorem loader_accepts_both_forms_and_failure (fields : List (String × JVal))
    (items : JVal) (xs : List JVal)
    (h : fields.lookup "items" = some items) :
    loadDatabase (LoadResult.parsed (JVal.jobj fields)) = items ∧
    loadDatabase (LoadResult.parsed (JVal.jarr xs)) = JVal.jarr xs ∧
    loadDatabase LoadResult.readOrParseError = JVal.jarr [] ∧
    loadDatabase LoadResult.fileMissing = JVal.jarr [] := by
  refine ⟨?_, rfl, rfl, rfl⟩
  simp [loadDatabase, h]

/-- Witness for C9 on a concrete wrapper object. -/
theorem loader_accepts_both_forms_and_failure_witness :
    loadDatabase (LoadResult.parsed (JVal.jobj
      [("updated_at", JVal.jstr "2024-01-01 00:00:00"),
       ("items", JVal.jarr [JVal.jnull])])) = JVal.jarr [JVal.jnull] ∧
    loadDatabase (LoadResult.parsed (JVal.jarr [])) = JVal.jarr [] ∧
    loadDatabase LoadResult.readOrParseError = JVal.jarr [] ∧
    loadDatabase LoadResult.fileMissing = JVal.jarr [] :=
  loader_accepts_both_forms_and_failure _ _ [] rfl

-- ### Claim theorems (pipeline)

/-- C7 (confirmed): a provider record whose site classification is outside
`{maniax, pro}` never changes the in-memory catalog, whatever its other
fields: processing such an identifier leaves `database` unchanged. -/
theorem catalog_unchanged_on_disallowed_site (env : Env) (ct : String)
    (n : Int) (st : St) (w : Work) (res : St × List String)
    (hw : env.provider (generate_id n ct) = some w)
    (h1 : w.site_id ≠ "maniax") (h2 : w.site_id ≠ "pro")
    (hres : processId env ct n st = some res) :
    res.1.database = st.database := by
  have hcond : (w.site_id == "maniax" || w.site_id == "pro") = false := by
    simp [h1, h2]
  simp only [processId] at hres
  split at hres
  · -- identifier already in the catalog: only asset repair happens
    split at hres
    · exact absurd hres (by simp)
    · split at hres
      · cases hres; rfl
      · split at hres
        · split at hres
          · cases hres; rfl
          · cases hres; rfl
        · cases hres; rfl
  · -- identifier not yet in the catalog
    split at hres
    · cases hres; rfl
    · rename_i w' heq
      rw [hw] at heq
      injection heq with hww
      subst hww
      rw [if_neg (by simp [hcond])] at hres
      cases hres; rfl

/-- Witness for C7: a disallowed record for `RJ000000` leaves the empty
catalog empty. -/
theorem catalog_unchanged_on_disallowed_site_witness :
    envBadOnly.provider (generate_id 0 "RJ") = some wBad ∧
      (processId envBadOnly "RJ" 0 ⟨[], []⟩ = some (⟨[], []⟩, []) ∧
        (((⟨[], []⟩, []) : St × List String)).1.database = St.database ⟨[], []⟩) :=
  ⟨rfl, rfl, catalog_unchanged_on_disallowed_site envBadOnly "RJ" 0 ⟨[], []⟩ wBad
    (⟨[], []⟩, []) rfl (by decide) (by decide) rfl⟩

/-- C8 (confirmed, with the spec's abstract family A realized as RJ): over
the universe `[0, 3]`, with the provider found-and-allowed at `RJ000001`
(title `T1`, circle `C1`), found-but-disallowed at `RJ000002` and not found
elsewhere, a full run from the empty catalog yields exactly one record
`{maker C1, code RJ000001, title T1, translate-title NaN}`. -/
theorem scenario_single_accepted_record :
    runIds envScenario "RJ" [0, 1, 2, 3] ⟨[], []⟩ =
      some (⟨[⟨"C1", "RJ000001", "T1", "NaN"⟩], []⟩, []) := rfl

/-- C4 failing run: with a provider whose echoed identifier `RJ0000001`
differs in padding from the requested `RJ000001`, the first run ingests one
record, and a second run over the same universe against the unchanged
provider and the first run's catalog appends the *same* record again — the
dedup lookup compares the generated identifier against stored echoed codes
and finds nothing.  The catalog is not idempotent under re-ingestion. -/
theorem reingestion_duplicates_on_echo_mismatch :
    runIds envEcho "RJ" [1] ⟨[], []⟩ =
      some (⟨[⟨"C1", "RJ0000001", "T1", "NaN"⟩], []⟩, []) ∧
    (runIds envEcho "RJ" [1] ⟨[], []⟩).bind (fun r => runIds envEcho "RJ" [1] r.1) =
      some (⟨[⟨"C1", "RJ0000001", "T1", "NaN"⟩,
              ⟨"C1", "RJ0000001", "T1", "NaN"⟩], []⟩, []) :=
  ⟨rfl, rfl⟩

-- ### Claim theorems (shard key)

/-- C5 counterexample: for `RJ999999` the shard key is `RJ1000000` — its
digit string is one character wider than the identifier's digit string
(`zfill` never truncates), so "same padding width" fails. -/
theorem shard_width_counterexample :
    get_base_folder "RJ999999" = some "RJ1000000" ∧
    ((get_base_folder "RJ999999").getD "").length = 9 ∧
    ("RJ999999" : String).length = 8 :=
  ⟨rfl, rfl, rfl⟩

/-- C5 as amended: for every identifier of the form `prefix ++ digits` (with
numeric value below `2 ^ 52`, where the source's float-based ceiling is
exact), the shard key keeps the prefix, its numeric value is the numeric
value of the identifier rounded up to the next multiple of 1000 (hence `≥`
it, and equal exactly on multiples of 1000), and its digit string has width
`max` of the source width and the width of the rounded value — i.e. the
source width unless the rounded value needs more digits. -/
theorem shard_key_characterization (P D : List Char)
    (hPne : P ≠ []) (hP : ∀ c ∈ P, isUpperAZ c = true)
    (hDne : D ≠ []) (hD : ∀ c ∈ D, isDigitCh c = true)
    (hsize : parseNat D < 2 ^ 52) :
    get_base_folder (String.mk (P ++ D)) =
      some (String.mk (P ++ zfill D.length (strChars ((parseNat D + 999) / 1000 * 1000)))) ∧
    parseNat D ≤ (parseNat D + 999) / 1000 * 1000 ∧
    (parseNat D + 999) / 1000 * 1000 % 1000 = 0 ∧
    (parseNat D + 999) / 1000 * 1000 < parseNat D + 1000 ∧
    (parseNat D % 1000 = 0 → (parseNat D + 999) / 1000 * 1000 = parseNat D) ∧
    parseNat (zfill D.length (strChars ((parseNat D + 999) / 1000 * 1000))) =
      (parseNat D + 999) / 1000 * 1000 ∧
    (zfill D.length (strChars ((parseNat D + 999) / 1000 * 1000))).length =
      max D.length (strChars ((parseNat D + 999) / 1000 * 1000)).length := by
  obtain ⟨hsplit1, hsplit2⟩ := regex_split P D hP hD hDne
  refine ⟨?_, by omega, by omega, by omega, by omega, ?_, ?_⟩
  · rw [get_base_folder]
    simp only [hsplit1, hsplit2]
    rw [if_neg (by push_neg; exact ⟨hPne, hDne⟩)]
  · rw [zfill, parseNat_zeros_append, parseNat_strChars]
  · rw [zfill, List.length_append, List.length_replicate]
    omega

/-- Witness for the amended C5 at `RJ001305` (shard `RJ002000`). -/
theorem shard_key_characterization_witness :
    get_base_folder (String.mk (['R', 'J'] ++ ['0', '0', '1', '3', '0', '5'])) =
      some (String.mk (['R', 'J'] ++
        zfill ['0', '0', '1', '3', '0', '5'].length
          (strChars ((parseNat ['0', '0', '1', '3', '0', '5'] + 999) / 1000 * 1000)))) ∧
    parseNat ['0', '0', '1', '3', '0', '5'] ≤
      (parseNat ['0', '0', '1', '3', '0', '5'] + 999) / 1000 * 1000 :=
  ⟨(shard_key_characterization ['R', 'J'] ['0', '0', '1', '3', '0', '5']
      (by decide) (by decide) (by decide) (by decide) (by decide)).1,
   (shard_key_characterization ['R', 'J'] ['0', '0', '1', '3', '0', '5']
      (by decide) (by decide) (by decide) (by decide) (by decide)).2.1⟩

-- ### Range and batching lemmas

theorem intRangeAux_add (m n : Nat) (a : Int) :
    intRangeAux (m + n) a = intRangeAux m a ++ intRangeAux n (a + m) := by
  induction m generalizing a with
  | zero => simp [intRangeAux]
  | succ m ih =>
    have hmn : m + 1 + n = (m + n) + 1 := by omega
    rw [hmn, intRangeAux, intRangeAux, ih, List.cons_append]
    have harg : a + 1 + (m : Int) = a + ((m + 1 : Nat) : Int) := by omega
    rw [harg]

theorem mem_intRangeAux {n : Nat} {a x : Int} :
    x ∈ intRangeAux n a ↔ a ≤ x ∧ x < a + n := by
  induction n generalizing a with
  | zero => simp [intRangeAux]
  | succ n ih =>
    rw [intRangeAux, List.mem_cons, ih]
    constructor
    · rintro (rfl | ⟨h1, h2⟩) <;> push_cast <;> omega
    · intro ⟨h1, h2⟩
      push_cast at h2
      rcases eq_or_lt_of_le h1 with rfl | hlt
      · exact Or.inl rfl
      · exact Or.inr ⟨by omega, by push_cast; omega⟩

theorem count_intRangeAux (n : Nat) (a x : Int) :
    (intRangeAux n a).count x = if a ≤ x ∧ x < a + n then 1 else 0 := by
  induction n generalizing a with
  | zero =>
    rw [intRangeAux, List.count_nil, if_neg (by omega)]
  | succ n ih =>
    rw [intRangeAux]
    by_cases hx : x = a
    · subst hx
      rw [List.count_cons_self, ih, if_neg (by omega), if_pos (by omega)]
    · rw [List.count_cons_of_ne hx, ih]
      by_cases h1 : a + 1 ≤ x ∧ x < a + 1 + n
      · rw [if_pos h1, if_pos (by omega)]
      · rw [if_neg h1, if_neg (by omega)]

theorem intRange_def (a b : Int) : intRange a b = intRangeAux (b - a).toNat a := rfl

theorem intRange_append (a b c : Int) (hab : a ≤ b) (hbc : b ≤ c) :
    intRange a b ++ intRange b c = intRange a c := by
  rw [intRange_def, intRange_def, intRange_def]
  have h : (c - a).toNat = (b - a).toNat + (c - b).toNat := by omega
  rw [h, intRangeAux_add]
  congr 2
  omega

theorem batchedIds_eq (k : Nat) : ∀ (cur fin : Int),
    (((fin + 1) - cur).toNat + 999) / 1000 = k →
    batchedIds cur fin 1000 = intRange cur (fin + 1) := by
  induction k with
  | zero =>
    intro cur fin hk
    have hM : ((fin + 1) - cur).toNat = 0 := by omega
    rw [batchedIds, pyRangeStep]
    have hcount : (((fin + 1) - cur).toNat + ((1000 : Int).toNat - 1)) / (1000 : Int).toNat = 0 := by
      rw [hM]; rfl
    rw [hcount, stepRangeAux, List.flatMap_nil, intRange_def, hM, intRangeAux]
  | succ k ih =>
    intro cur fin hk
    have hM : 0 < ((fin + 1) - cur).toNat := by omega
    rw [batchedIds, pyRangeStep]
    have hcount : (((fin + 1) - cur).toNat + ((1000 : Int).toNat - 1)) / (1000 : Int).toNat = k + 1 := by
      rw [show ((1000 : Int).toNat - 1) = 999 from rfl, show ((1000 : Int).toNat) = 1000 from rfl]
      exact hk
    rw [hcount, stepRangeAux, List.flatMap_cons]
    rcases le_or_lt (cur + 999) fin with hle | hlt
    · have hcount2 : (((fin + 1) - (cur + 1000)).toNat + ((1000 : Int).toNat - 1)) / (1000 : Int).toNat = k := by
        rw [show ((1000 : Int).toNat - 1) = 999 from rfl, show ((1000 : Int).toNat) = 1000 from rfl]
        omega
      have hrest : (stepRangeAux k (cur + 1000) 1000).flatMap
          (fun bs => intRange bs (min (bs + 1000 - 1) fin + 1)) = intRange (cur + 1000) (fin + 1) := by
        have h2 := ih (cur + 1000) fin (by omega)
        rw [batchedIds, pyRangeStep] at h2
        rwa [hcount2] at h2
      rw [hrest, min_eq_left (show cur + 1000 - 1 ≤ fin by omega),
        show cur + 1000 - 1 + 1 = cur + 1000 from by ring,
        intRange_append cur (cur + 1000) (fin + 1) (by omega) (by omega)]
    · rw [min_eq_right (show fin ≤ cur + 1000 - 1 by omega)]
      have hk0 : k = 0 := by omega
      subst hk0
      rw [stepRangeAux, List.flatMap_nil, List.append_nil]

theorem batchedIds_flatten (cur fin : Int) :
    batchedIds cur fin 1000 = intRange cur (fin + 1) :=
  batchedIds_eq _ cur fin rfl

-- ### Evaluation of the resume logic and of `main`

theorem resumeInfo_none : resumeInfo none = Except.ok ⟨0, 0, false⟩ := rfl

theorem resumeInfo_rjCursor (c : Int) :
    resumeInfo (some (generate_id c "RJ")) = Except.ok
      ⟨c, if 0 ≤ c ∧ c ≤ 499999 then 0
          else if 1000000 ≤ c ∧ c ≤ 1369999 then 1 else 0, false⟩ := by
  rw [resumeInfo, extract_generate_roundtrip c "RJ" (Or.inl rfl)]
  simp only [Except.map]
  norm_num

theorem rjVisited_idx0 (s : Int) :
    rjVisited ⟨s, 0, false⟩ = intRange s 500000 ++ intRange 1000000 1370000 := by
  show batchedIds s 499999 1000 ++ (batchedIds 1000000 1369999 1000 ++ []) =
    intRange s 500000 ++ intRange 1000000 1370000
  rw [batchedIds_flatten, batchedIds_flatten, List.append_nil]
  norm_num

theorem rjVisited_idx1 (s : Int) :
    rjVisited ⟨s, 1, false⟩ = intRange s 1370000 := by
  show batchedIds s 1369999 1000 ++ [] = intRange s 1370000
  rw [batchedIds_flatten, List.append_nil]
  norm_num

theorem mainRun_none_eq :
    mainRun none = Except.ok
      ((intRange 0 500000 ++ intRange 1000000 1370000).map (fun n => generate_id n "RJ"),
        some "TypeError: can only concatenate tuple (not \"int\") to tuple") := by
  show Except.ok ((rjVisited ⟨0, 0, false⟩).map (fun n => generate_id n "RJ"),
      some "TypeError: can only concatenate tuple (not \"int\") to tuple") = _
  rw [rjVisited_idx0]

theorem mainRun_rjCursor_low (c : Int) (h0 : 0 ≤ c) (h1 : c ≤ 499999) :
    mainRun (some (generate_id c "RJ")) = Except.ok
      ((intRange c 500000 ++ intRange 1000000 1370000).map (fun n => generate_id n "RJ"),
        some "TypeError: can only concatenate tuple (not \"int\") to tuple") := by
  rw [mainRun, resumeInfo_rjCursor, if_pos ⟨h0, h1⟩]
  show Except.ok ((rjVisited ⟨c, 0, false⟩).map (fun n => generate_id n "RJ"),
      some "TypeError: can only concatenate tuple (not \"int\") to tuple") = _
  rw [rjVisited_idx0]

theorem mainRun_rjCursor_high (c : Int) (h0 : 1000000 ≤ c) (h1 : c ≤ 1369999) :
    mainRun (some (generate_id c "RJ")) = Except.ok
      ((intRange c 1370000).map (fun n => generate_id n "RJ"),
        some "TypeError: can only concatenate tuple (not \"int\") to tuple") := by
  rw [mainRun, resumeInfo_rjCursor, if_neg (by omega), if_pos ⟨h0, h1⟩]
  show Except.ok ((rjVisited ⟨c, 1, false⟩).map (fun n => generate_id n "RJ"),
      some "TypeError: can only concatenate tuple (not \"int\") to tuple") = _
  rw [rjVisited_idx1]

theorem visitedOf_ok (p : List String × Option String) :
    visitedOf (Except.ok p) = p.1 := rfl

theorem mem_universeRJ {x : Int} :
    x ∈ universeRJ ↔ (0 ≤ x ∧ x < 500000) ∨ (1000000 ≤ x ∧ x < 1370000) := by
  rw [universeRJ, List.mem_append, intRange_def, intRange_def,
    mem_intRangeAux, mem_intRangeAux]
  norm_num

/-- C1 (the claim is the spec's intent; the code crashes instead): a fresh
run visits exactly the two declared RJ intervals, in order, and then dies
with an uncaught `TypeError` when the VJ phase evaluates `vj_range[1] + 1`
(a tuple plus an int): no VJ identifier is ever visited. -/
theorem main_fresh_run_stops_before_vj :
    mainRun none = Except.ok
      ((intRange 0 500000 ++ intRange 1000000 1370000).map (fun n => generate_id n "RJ"),
        some "TypeError: can only concatenate tuple (not \"int\") to tuple") :=
  mainRun_none_eq

-- ### Injectivity of the generated identifiers, stop/cursor lemmas

theorem generate_id_inj {x y : Int} {t : String} (ht : t = "RJ" ∨ t = "VJ")
    (h : generate_id x t = generate_id y t) : x = y := by
  have hx := extract_generate_roundtrip x t ht
  have hy := extract_generate_roundtrip y t ht
  rw [h, hy] at hx
  simp only [Except.ok.injEq, Prod.mk.injEq] at hx
  exact hx.1.symm

theorem count_map_gen (t : String) (ht : t = "RJ" ∨ t = "VJ") (l : List Int) (x : Int) :
    (l.map (fun n => generate_id n t)).count (generate_id x t) = l.count x := by
  induction l with
  | nil => rfl
  | cons a l ih =>
    rw [List.map_cons]
    by_cases hx : x = a
    · subst hx
      rw [List.count_cons_self, List.count_cons_self, ih]
    · rw [List.count_cons_of_ne (fun hc => hx (generate_id_inj ht hc)),
        List.count_cons_of_ne hx, ih]

theorem gen_not_mem_map {t : String} (ht : t = "RJ" ∨ t = "VJ") {l : List Int}
    {x : Int} (hx : x ∉ l) :
    generate_id x t ∉ l.map (fun n => generate_id n t) := by
  intro hc
  rw [List.mem_map] at hc
  obtain ⟨y, hy, he⟩ := hc
  exact hx (generate_id_inj ht he.symm ▸ hy)

theorem stopAfter_append_of_not_mem (K : String) (l r : List String) (h : K ∉ l) :
    stopAfter K (l ++ r) = l ++ stopAfter K r := by
  induction l with
  | nil => rfl
  | cons x xs ih =>
    rw [List.cons_append, stopAfter]
    rw [if_neg (fun hxK => h (by rw [← hxK]; exact List.mem_cons_self x xs))]
    rw [ih (fun hK => h (List.mem_cons_of_mem x hK)), List.cons_append]

theorem stopAfter_map_range (f : Int → String) (hf : ∀ x y, f x = f y → x = y) (t : Int) :
    ∀ (n : Nat) (a : Int) (rest : List String), a ≤ t → t < a + n →
    stopAfter (f t) ((intRangeAux n a).map f ++ rest) =
      (intRangeAux (t + 1 - a).toNat a).map f := by
  intro n
  induction n with
  | zero => intro a rest h1 h2; exact absurd h2 (by omega)
  | succ n ih =>
    intro a rest h1 h2
    rw [intRangeAux, List.map_cons, List.cons_append, stopAfter]
    by_cases hat : f a = f t
    · rw [if_pos hat]
      have ha : a = t := hf a t hat
      subst ha
      rw [show (a + 1 - a).toNat = 1 from by omega]
      rw [intRangeAux, intRangeAux, List.map_cons, List.map_nil]
    · rw [if_neg hat]
      have hne : a ≠ t := fun hc2 => hat (by rw [hc2])
      rw [ih (a + 1) rest (by omega) (by omega)]
      rw [show (t + 1 - a).toNat = (t + 1 - (a + 1)).toNat + 1 from by omega]
      rw [intRangeAux, List.map_cons]

theorem filter_map_gen (p : String → Bool) (q : Int → Bool) (t : String)
    (h : ∀ x, p (generate_id x t) = q x) (l : List Int) :
    (l.map (fun n => generate_id n t)).filter p =
      (l.filter q).map (fun n => generate_id n t) := by
  induction l with
  | nil => rfl
  | cons a l ih =>
    rw [List.map_cons, List.filter_cons, List.filter_cons, h a]
    cases hq : q a
    · rw [if_neg (by simp), if_neg (by simp), ih]
    · rw [if_pos rfl, if_pos rfl, List.map_cons, ih]

theorem chkSaved_gen (x : Int) : chkSaved (generate_id x "RJ") = (x % 10 == 0) := by
  rw [chkSaved, extract_generate_roundtrip x "RJ" (Or.inl rfl)]

theorem filter_mod10_window (k : Nat) (c : Int) (hc : c % 10 = 0) (hk : k ≤ 10) :
    0 < k → (intRangeAux k c).filter (fun x => x % 10 == 0) = [c] := by
  match k with
  | 0 => intro h; exact absurd h (by omega)
  | k + 1 =>
    intro _
    rw [intRangeAux, List.filter_cons, if_pos (by simpa using hc)]
    have hrest : (intRangeAux k (c + 1)).filter (fun x => x % 10 == 0) = [] := by
      rw [List.filter_eq_nil_iff]
      intro x hx hmod
      rw [mem_intRangeAux] at hx
      simp only [beq_iff_eq] at hmod
      omega
    rw [hrest]

theorem intRangeAux_congr_base {n : Nat} {a b : Int} (h : a = b) :
    intRangeAux n a = intRangeAux n b := by rw [h]

theorem visitedOf_ok2 (l : List String) (m : Option String) :
    visitedOf (Except.ok (l, m)) = l := rfl

theorem phaseOne_low (t : Int) (h0 : 0 ≤ t) (h1 : t ≤ 499999) :
    phaseOne t = (intRangeAux (t + 1).toNat 0).map (fun n => generate_id n "RJ") := by
  rw [phaseOne, onePassIds, mainRun_none_eq]
  show stopAfter (generate_id t "RJ")
    ((intRange 0 500000 ++ intRange 1000000 1370000).map (fun n => generate_id n "RJ")) = _
  rw [List.map_append]
  rw [show intRange 0 500000 = intRangeAux 500000 0 from rfl]
  rw [stopAfter_map_range (fun n => generate_id n "RJ")
    (fun x y hxy => generate_id_inj (Or.inl rfl) hxy) t 500000 0 _ h0 (by omega)]
  rw [show t + 1 - 0 = t + 1 from by ring]

theorem phaseOne_high (t : Int) (h0 : 1000000 ≤ t) (h1 : t ≤ 1369999) :
    phaseOne t = (intRangeAux 500000 0).map (fun n => generate_id n "RJ") ++
      (intRangeAux (t + 1 - 1000000).toNat 1000000).map (fun n => generate_id n "RJ") := by
  rw [phaseOne, onePassIds, mainRun_none_eq]
  show stopAfter (generate_id t "RJ")
    ((intRange 0 500000 ++ intRange 1000000 1370000).map (fun n => generate_id n "RJ")) = _
  rw [List.map_append]
  rw [show intRange 0 500000 = intRangeAux 500000 0 from rfl,
    show intRange 1000000 1370000 = intRangeAux 370000 1000000 from rfl]
  rw [stopAfter_append_of_not_mem _ _ _ (gen_not_mem_map (Or.inl rfl)
    (fun hmem => by rw [mem_intRangeAux] at hmem; omega))]
  rw [← List.append_nil ((intRangeAux 370000 1000000).map (fun n => generate_id n "RJ"))]
  rw [stopAfter_map_range (fun n => generate_id n "RJ")
    (fun x y hxy => generate_id_inj (Or.inl rfl) hxy) t 370000 1000000 [] h0 (by omega)]

theorem savedCursor_phaseOne_low (t : Int) (h0 : 0 ≤ t) (h1 : t ≤ 499999) :
    savedCursor (phaseOne t) = some (generate_id (t - t % 10) "RJ") := by
  rw [phaseOne_low t h0 h1, savedCursor]
  rw [filter_map_gen chkSaved (fun x => x % 10 == 0) "RJ" chkSaved_gen]
  have hsplit : intRangeAux (t + 1).toNat 0 =
      intRangeAux (t - t % 10).toNat 0 ++
        intRangeAux (t + 1 - (t - t % 10)).toNat (t - t % 10) := by
    have hadd : (t + 1).toNat = (t - t % 10).toNat + (t + 1 - (t - t % 10)).toNat := by
      omega
    rw [hadd, intRangeAux_add, intRangeAux_congr_base
      (show (0 : Int) + ((t - t % 10).toNat : Int) = t - t % 10 from by omega)]
  rw [hsplit, List.filter_append,
    filter_mod10_window _ (t - t % 10) (by omega) (by omega) (by omega)]
  rw [List.map_append, List.map_cons, List.map_nil, List.getLast?_concat]

theorem savedCursor_phaseOne_high (t : Int) (h0 : 1000000 ≤ t) (h1 : t ≤ 1369999) :
    savedCursor (phaseOne t) = some (generate_id (t - t % 10) "RJ") := by
  rw [phaseOne_high t h0 h1, savedCursor, List.filter_append]
  rw [filter_map_gen chkSaved (fun x => x % 10 == 0) "RJ" chkSaved_gen,
    filter_map_gen chkSaved (fun x => x % 10 == 0) "RJ" chkSaved_gen]
  have hsplit : intRangeAux (t + 1 - 1000000).toNat 1000000 =
      intRangeAux (t - t % 10 - 1000000).toNat 1000000 ++
        intRangeAux (t + 1 - (t - t % 10)).toNat (t - t % 10) := by
    have hadd : (t + 1 - 1000000).toNat =
        (t - t % 10 - 1000000).toNat + (t + 1 - (t - t % 10)).toNat := by omega
    rw [hadd, intRangeAux_add, intRangeAux_congr_base
      (show (1000000 : Int) + ((t - t % 10 - 1000000).toNat : Int) = t - t % 10 from by omega)]
  rw [hsplit, List.filter_append,
    filter_mod10_window _ (t - t % 10) (by omega) (by omega) (by omega)]
  rw [List.map_append, List.map_cons, List.map_nil, ← List.append_assoc,
    List.getLast?_concat]

theorem twoPhase_count (t : Int) (ht : t ∈ universeRJ) (x : Int) :
    (twoPhase t).count (generate_id x "RJ") =
      (if t - t % 10 ≤ x ∧ x ≤ t then 1 else 0) +
      (if x ∈ universeRJ then 1 else 0) := by
  rcases mem_universeRJ.mp ht with ⟨h0, h1⟩ | ⟨h0, h1⟩
  · rw [twoPhase, savedCursor_phaseOne_low t h0 (by omega),
      mainRun_rjCursor_low (t - t % 10) (by omega) (by omega), visitedOf_ok2,
      phaseOne_low t h0 (by omega), List.count_append,
      count_map_gen "RJ" (Or.inl rfl), count_map_gen "RJ" (Or.inl rfl),
      List.count_append, intRange_def, intRange_def,
      count_intRangeAux, count_intRangeAux, count_intRangeAux]
    simp only [mem_universeRJ]
    split_ifs <;> omega
  · rw [twoPhase, savedCursor_phaseOne_high t h0 (by omega),
      mainRun_rjCursor_high (t - t % 10) (by omega) (by omega), visitedOf_ok2,
      phaseOne_high t h0 (by omega), List.count_append, List.count_append,
      count_map_gen "RJ" (Or.inl rfl), count_map_gen "RJ" (Or.inl rfl),
      count_map_gen "RJ" (Or.inl rfl), intRange_def,
      count_intRangeAux, count_intRangeAux, count_intRangeAux]
    simp only [mem_universeRJ]
    split_ifs <;> omega

/-- C3 counterexample: stopping a fresh run right after `RJ000005` persists
the cursor `RJ000000` (the last checkpoint), so the resumed run re-visits
`RJ000000`: across the two-phase run that identifier is visited twice, not
exactly once as the claim demands. -/
theorem resume_exactly_once_fails :
    generate_id 0 "RJ" ∈ twoPhase 5 ∧
      (twoPhase 5).count (generate_id 0 "RJ") = 2 := by
  have h5 : (5 : Int) ∈ universeRJ := by rw [mem_universeRJ]; norm_num
  have hc := twoPhase_count 5 h5 0
  rw [if_pos (by norm_num), if_pos (by rw [mem_universeRJ]; norm_num)] at hc
  refine ⟨?_, by rw [hc]⟩
  rw [← List.count_pos_iff, hc]
  norm_num

/-- C3 as amended: for every number `t` of the family-A universe, stopping a
fresh run right after identifier `t` persists the cursor `t - t % 10` (the
checkpoint cadence rounds down to a multiple of 10), and across the stopped
run plus the resumed run every identifier of the family-A universe is visited
— the ones from the cursor through `t` exactly twice (once per phase), all
others exactly once, and identifiers outside the family-A universe (in
particular all family-B identifiers, which the crash of C1 makes unreachable)
zero times. -/
theorem resume_two_phase_characterization (t : Int) (ht : t ∈ universeRJ) :
    savedCursor (phaseOne t) = some (generate_id (t - t % 10) "RJ") ∧
    ∀ x : Int, (twoPhase t).count (generate_id x "RJ") =
      (if t - t % 10 ≤ x ∧ x ≤ t then 1 else 0) +
      (if x ∈ universeRJ then 1 else 0) := by
  refine ⟨?_, twoPhase_count t ht⟩
  rcases mem_universeRJ.mp ht with ⟨h0, h1⟩ | ⟨h0, h1⟩
  · exact savedCursor_phaseOne_low t h0 (by omega)
  · exact savedCursor_phaseOne_high t h0 (by omega)

/-- Witness for the amended C3 at `t = 5`, evaluated at `x = 3`. -/
theorem resume_two_phase_characterization_witness :
    savedCursor (phaseOne 5) = some (generate_id (5 - 5 % 10) "RJ") ∧
      (twoPhase 5).count (generate_id 3 "RJ") = 2 := by
  have h5 : (5 : Int) ∈ universeRJ := by rw [mem_universeRJ]; norm_num
  have H := resume_two_phase_characterization 5 h5
  refine ⟨H.1, ?_⟩
  have h3 := H.2 3
  rw [if_pos (by norm_num), if_pos (by rw [mem_universeRJ]; norm_num)] at h3
  rw [h3]
